import Mathlib

/-!
Verification development for the pdf-zipper-v2 conversion pipeline.

Shallow embedding of the quality-gating, weekly-bin, URL-normalization and
file-deletion logic of the repository, together with theorems settling the
specification claims against it.  Each definition mirrors one function of the
TypeScript source; effectful calls (browser capture, vision model, PDF parse,
filesystem) are represented by explicit parameters and an explicit file-set
state.
-/

/-! ## Conversion worker: blank-page heuristic (src/workers/conversion.worker.ts) -/

/-- Threshold `MIN_SCREENSHOT_SIZE = 15000` from `processJob`. -/
def MIN_SCREENSHOT_SIZE : Nat := 15000

/-- Threshold `MIN_PDF_SIZE = 5000` from `processJob`. -/
def MIN_PDF_SIZE : Nat := 5000

/-- Source `const screenshotFailed = result.screenshotBuffer.length === 0`. -/
def screenshotFailed (screenshotLen : Nat) : Bool := screenshotLen == 0

/-- The `isBlankPage` condition of `processJob`: when the screenshot capture
failed (0 bytes) only the PDF size is consulted; otherwise the page counts as
blank when the screenshot is below 15000 bytes OR the PDF is below 5000 bytes. -/
def isBlankPage (screenshotLen pdfLen : Nat) : Bool :=
  if screenshotFailed screenshotLen then pdfLen < MIN_PDF_SIZE
  else screenshotLen < MIN_SCREENSHOT_SIZE || pdfLen < MIN_PDF_SIZE

/-- The exact error message thrown by `processJob` when `isBlankPage` holds. -/
def blankPageError (screenshotLen pdfLen : Nat) : String :=
  "bot_detected: Page is blank - likely bot detection blocked content (screenshot: "
    ++ toString screenshotLen ++ "B, PDF: " ++ toString pdfLen ++ "B)"

/-! ## Quality scorer (src/quality/scorer.ts) -/

/-- The parsed `{score, issue, reasoning}` object of `parseQualityResponse`. -/
structure QualityScore where
  score : Int
  issue : Option String
  reasoning : String
deriving Repr, DecidableEq

/-- Return value of `scoreScreenshotQuality`. -/
structure QualityResult where
  passed : Bool
  score : QualityScore
  issue : Option String
deriving Repr, DecidableEq

/-- Source `scoreScreenshotQuality`, as a function of the outcome of
`parseQualityResponse` on the vision model response (`none` when the response
is still malformed after the lenient-JSON fallback) and of the configured
threshold.  A parse failure yields a FAILING result with issue `unknown`;
otherwise pass iff the (already clamped) score reaches the threshold. -/
def scoreScreenshotQuality (threshold : Int) (parsedScore : Option QualityScore) :
    QualityResult :=
  match parsedScore with
  | none =>
      { passed := false
        score := { score := 0, issue := some "unknown"
                   reasoning := "Failed to parse quality assessment response" }
        issue := some "unknown" }
  | some ps =>
      if ps.score ≥ threshold then { passed := true, score := ps, issue := none }
      else { passed := false, score := ps, issue := some (ps.issue.getD "unknown") }

/-! ## Conversion worker: quality stage (src/workers/conversion.worker.ts, lines 321-362) -/

/-- Outcome of the call `await scoreScreenshotQuality(...)` as seen by the
worker: either the promise rejects with some error message (vision model
unreachable, network failure, ...) or it resolves to a `QualityResult`. -/
inductive ScoringCall where
  | throws (msg : String)
  | returns (q : QualityResult)
deriving Repr, DecidableEq

/-- The failure-kind message heads re-thrown by the worker catch block. -/
def knownFailureKinds : List String :=
  ["blank_page:", "paywall:", "bot_detected:", "quality_failed:",
   "truncated:", "low_contrast:", "missing_content:", "unknown:"]

/-- Character-list prefix test, the meaning of `String.startsWith`. -/
def strStartsWith (s pat : String) : Bool :=
  pat.data.isPrefixOf s.data

/-- Does the error message start with one of the recognized kind heads
(the `error.message.startsWith(...)` chain in the worker catch block)? -/
def hasKnownFailureKind (msg : String) : Bool :=
  knownFailureKinds.any (fun p => strStartsWith msg p)

/-- The message thrown at line 338 of the worker for a failing quality result:
`` `${issue}: ${reasoning}` `` with `issue = qualityResult.score.issue || 'quality_failed'`. -/
def qualityFailureMessage (q : QualityResult) : String :=
  (q.score.issue.getD "quality_failed") ++ ": " ++ q.score.reasoning

/-- The quality stage of `processJob` (the try/catch around visual scoring).
Returns `.error msg` when the stage fails the job and `.ok result` when the
job continues to content analysis with that quality result.

* screenshot capture failed: synthetic pass with score `-1`, scorer not called;
* scorer returns a passing result: continue with it;
* scorer returns a failing result: the worker throws `issue: reasoning`,
  which its own catch re-throws iff the message starts with a known kind,
  and otherwise converts into a synthetic pass with score `50`;
* scorer itself throws: re-thrown iff the message starts with a known kind,
  otherwise converted into a synthetic pass with score `50`. -/
def qualityStage (scFailed : Bool) (call : ScoringCall) :
    Except String QualityResult :=
  if scFailed then
    .ok { passed := true
          score := { score := -1, issue := none
                     reasoning := "Screenshot capture failed, quality check skipped" }
          issue := none }
  else
    match call with
    | .returns q =>
        if q.passed then .ok q
        else
          let msg := qualityFailureMessage q
          if hasKnownFailureKind msg then .error msg
          else .ok { passed := true
                     score := { score := 50, issue := none
                                reasoning := "Quality scoring error: " ++ msg }
                     issue := none }
    | .throws m =>
        if hasKnownFailureKind m then .error m
        else .ok { passed := true
                   score := { score := 50, issue := none
                              reasoning := "Quality scoring error: " ++ m }
                   issue := none }

/-- Whether the quality stage wrote the debug PDF: `saveDebugPdf` runs at
line 334, before the throw for a failing quality result, and nowhere else in
the stage (in particular not when the scorer call itself rejects). -/
def qualityDebugWritten (scFailed : Bool) (call : ScoringCall) : Bool :=
  !scFailed &&
    match call with
    | .returns q => !q.passed
    | .throws _ => false

/-! ## Conversion worker: file effects (deleteOldFileIfDifferent and the save/delete order) -/

/-- The filesystem is modelled as the set (list without duplicates) of
resolved absolute paths of existing files. -/
abbrev FS := List String

/-- Source `writeFile`: after the call the path exists. -/
def writeAt (p : String) (fs : FS) : FS := if p ∈ fs then fs else p :: fs

/-- Source `unlink`: after the call the path does not exist (ENOENT is swallowed). -/
def removeFile (p : String) (fs : FS) : FS := fs.filter (fun q => q != p)

/-- Source `deleteOldFileIfDifferent(oldFilePath, newFilePath)`: resolve both paths;
no-op when they coincide (the new write already overwrote), else unlink the
old resolved path. -/
def deleteOldFileIfDifferent (resolve : String → String)
    (oldFilePath newFilePath : String) (fs : FS) : FS :=
  let oldNorm := resolve oldFilePath
  let newNorm := resolve newFilePath
  if oldNorm = newNorm then fs else removeFile oldNorm fs

/-- Outcome of `convertUrlToPDF` as consumed by `processJob`. -/
structure CaptureResult where
  success : Bool
  reason : String
  error : String
  screenshotLen : Nat
  pdfLen : Nat
deriving Repr, DecidableEq

/-- Result of one run of the worker on a job: the returned pdf path or the
thrown error message, together with the final file set. -/
structure JobOutcome where
  result : Except String String
  fs : FS
deriving Repr

/-- The regular (non-passthrough) flow of `processJob`, lines 286-394, as a
state transformer on the file set.  `savePath` is the path computed by
`savePdfToWeeklyBin`, `debugPath` the `DATA_DIR/debug/jobId.pdf` path,
`call` the outcome of the visual-scoring call, `contentPassed`/`contentReason`
the outcome of `analyzePdfContent`.  Order of effects follows the source:
capture failure throws (no debug file), blank page writes the debug file then
throws, quality failure writes the debug file then throws, content failure
writes the debug file then throws; otherwise the new PDF is saved and only
then, when `oldFilePath` is present, the old file is deleted if different. -/
def processJobModel (resolve : String → String) (debugPath savePath : String)
    (oldFilePath : Option String) (cap : CaptureResult) (call : ScoringCall)
    (contentPassed : Bool) (contentReason : String) (fs : FS) : JobOutcome :=
  if !cap.success then
    { result := .error (cap.reason ++ ": " ++ cap.error), fs := fs }
  else if isBlankPage cap.screenshotLen cap.pdfLen then
    { result := .error (blankPageError cap.screenshotLen cap.pdfLen)
      fs := writeAt debugPath fs }
  else
    let scFailed := screenshotFailed cap.screenshotLen
    let fsq := if qualityDebugWritten scFailed call then writeAt debugPath fs else fs
    match qualityStage scFailed call with
    | .error msg => { result := .error msg, fs := fsq }
    | .ok _ =>
        if !contentPassed then
          { result := .error ("truncated: " ++ contentReason)
            fs := writeAt debugPath fsq }
        else
          let fs1 := writeAt (resolve savePath) fsq
          let fs2 :=
            match oldFilePath with
            | some old => deleteOldFileIfDifferent resolve old savePath fs1
            | none => fs1
          { result := .ok savePath, fs := fs2 }

/-! ## File-set helper lemmas -/

theorem mem_writeAt_self (p : String) (fs : FS) : p ∈ writeAt p fs := by
  unfold writeAt; split
  · assumption
  · exact List.mem_cons_self p fs

theorem mem_writeAt_of_mem (p : String) {q : String} {fs : FS} (h : q ∈ fs) :
    q ∈ writeAt p fs := by
  unfold writeAt; split
  · exact h
  · exact List.mem_cons_of_mem p h

theorem not_mem_removeFile (p : String) (fs : FS) : p ∉ removeFile p fs := by
  intro h
  have := List.of_mem_filter h
  simp at this

theorem mem_removeFile_of_ne {q p : String} {fs : FS} (h : q ∈ fs) (hne : q ≠ p) :
    q ∈ removeFile p fs := by
  refine List.mem_filter.mpr ⟨h, ?_⟩
  simpa using hne

/-! ## Claim theorems: blank-page heuristic (C1) -/

/-- C1 counterexample: at a 14999-byte screenshot and 4999-byte PDF the
heuristic fires, but the raised message is prefixed `bot_detected:`, not
`blank_page:` as the claim states. -/
theorem blankPage_kind_counterexample :
    isBlankPage 14999 4999 = true
    ∧ strStartsWith (blankPageError 14999 4999) "blank_page:" = false
    ∧ strStartsWith (blankPageError 14999 4999) "bot_detected:" = true := by
  refine ⟨rfl, ?_, ?_⟩ <;> decide

/-- C1 (amended): for every successful capture with screenshot below 15000
bytes and PDF below 5000 bytes, the worker raises the blank-page failure —
whose message is prefixed `bot_detected:` — without consulting the visual
scorer (the outcome is the same for every scoring-call outcome `call`);
already a 14999-byte screenshot triggers the heuristic at any PDF size, and
at 15000-byte screenshot with 5000-byte PDF the heuristic does not fire. -/
theorem blankPage_heuristic_amended (resolve : String → String)
    (debugPath savePath : String) (old : Option String) (cap : CaptureResult)
    (call : ScoringCall) (contentPassed : Bool) (contentReason : String)
    (fs : FS) (hsucc : cap.success = true) (hs : cap.screenshotLen < 15000)
    (hp : cap.pdfLen < 5000) :
    processJobModel resolve debugPath savePath old cap call contentPassed
        contentReason fs =
      { result := .error (blankPageError cap.screenshotLen cap.pdfLen)
        fs := writeAt debugPath fs }
    ∧ (∃ rest, blankPageError cap.screenshotLen cap.pdfLen =
        "bot_detected:" ++ rest)
    ∧ (∀ q, isBlankPage 14999 q = true)
    ∧ isBlankPage 15000 5000 = false := by
  have hblank : isBlankPage cap.screenshotLen cap.pdfLen = true := by
    unfold isBlankPage screenshotFailed MIN_SCREENSHOT_SIZE MIN_PDF_SIZE
    by_cases h0 : cap.screenshotLen = 0 <;> simp [h0, hs, hp]
  refine ⟨?_, ?_, ?_, rfl⟩
  · simp [processJobModel, hsucc, hblank]
  · refine ⟨" Page is blank - likely bot detection blocked content (screenshot: "
      ++ toString cap.screenshotLen ++ "B, PDF: "
      ++ toString cap.pdfLen ++ "B)", ?_⟩
    unfold blankPageError
    simp only [String.append_assoc]
    rw [show ("bot_detected: Page is blank - likely bot detection blocked content (screenshot: " : String)
        = "bot_detected:" ++ " Page is blank - likely bot detection blocked content (screenshot: " from rfl]
    rw [String.append_assoc]
  · intro q; rfl

/-- Closed instance of the amended C1 theorem at a concrete job. -/
theorem blankPage_heuristic_amended_witness :
    processJobModel id "/data/debug/1.pdf" "/data/new.pdf" none
        { success := true, reason := "", error := ""
          screenshotLen := 100, pdfLen := 100 }
        (.returns { passed := true
                    score := { score := 90, issue := none, reasoning := "ok" }
                    issue := none })
        true "" [] =
      { result := .error (blankPageError 100 100)
        fs := writeAt "/data/debug/1.pdf" [] }
    ∧ (∃ rest, blankPageError 100 100 = "bot_detected:" ++ rest)
    ∧ (∀ q, isBlankPage 14999 q = true)
    ∧ isBlankPage 15000 5000 = false :=
  blankPage_heuristic_amended id "/data/debug/1.pdf" "/data/new.pdf" none
    { success := true, reason := "", error := "", screenshotLen := 100, pdfLen := 100 }
    (.returns { passed := true
                score := { score := 90, issue := none, reasoning := "ok" }
                issue := none })
    true "" [] rfl (by decide) (by decide)

/-! ## Claim theorems: vision-model fallback (C3) -/

/-- C3 counterexample: when the scoring call rejects with an unclassified
message (vision model unreachable) the worker continues with a synthetic pass
of score `50`, not `-1`; and when the model response is still malformed after
the lenient-JSON fallback the worker RAISES a failure prefixed `unknown:`
instead of passing. -/
theorem visionFallback_counterexample :
    qualityStage false (.throws "fetch failed") =
      .ok { passed := true
            score := { score := 50, issue := none
                       reasoning := "Quality scoring error: fetch failed" }
            issue := none }
    ∧ qualityStage false (.returns (scoreScreenshotQuality 50 none)) =
      .error "unknown: Failed to parse quality assessment response" :=
  ⟨rfl, rfl⟩

/-- C3 (amended): a rejected scoring call whose message carries no known
failure kind becomes a synthetic pass with score `50`; a response that is
still malformed after the lenient-JSON fallback makes the scorer fail with
issue `unknown`, which the worker re-raises as an `unknown:`-prefixed
failure; and the synthetic `-1` pass is used exactly when the screenshot
capture failed. -/
theorem visionFallback_amended (m : String) (t : Int) (call : ScoringCall)
    (hm : hasKnownFailureKind m = false) :
    qualityStage false (.throws m) =
      .ok { passed := true
            score := { score := 50, issue := none
                       reasoning := "Quality scoring error: " ++ m }
            issue := none }
    ∧ qualityStage false (.returns (scoreScreenshotQuality t none)) =
      .error "unknown: Failed to parse quality assessment response"
    ∧ qualityStage true call =
      .ok { passed := true
            score := { score := -1, issue := none
                       reasoning := "Screenshot capture failed, quality check skipped" }
            issue := none } := by
  refine ⟨?_, rfl, rfl⟩
  simp [qualityStage, hm]

/-- Closed instance of the amended C3 theorem. -/
theorem visionFallback_amended_witness :
    qualityStage false (.throws "fetch failed") =
      .ok { passed := true
            score := { score := 50, issue := none
                       reasoning := "Quality scoring error: " ++ "fetch failed" }
            issue := none }
    ∧ qualityStage false (.returns (scoreScreenshotQuality 50 none)) =
      .error "unknown: Failed to parse quality assessment response"
    ∧ qualityStage true (.throws "x") =
      .ok { passed := true
            score := { score := -1, issue := none
                       reasoning := "Screenshot capture failed, quality check skipped" }
            issue := none } :=
  visionFallback_amended "fetch failed" 50 (.throws "x") (by decide)

/-! ## Claim theorems: oldFilePath protocol (C4) -/

/-- C4: on a job carrying `oldFilePath`, a successful run leaves the new
resolved path existing, and the old resolved path missing exactly when it
differs from the new one; on any failing run the old file is never deleted
(the file set can only have grown by debug writes). -/
theorem oldFilePath_protocol (resolve : String → String)
    (debugPath savePath pold : String) (cap : CaptureResult)
    (call : ScoringCall) (contentPassed : Bool) (contentReason : String)
    (fs : FS) :
    (∀ pnew fs2,
      processJobModel resolve debugPath savePath (some pold) cap call
          contentPassed contentReason fs =
        { result := .ok pnew, fs := fs2 } →
      resolve pnew ∈ fs2 ∧ (resolve pold ∉ fs2 ↔ resolve pold ≠ resolve pnew))
    ∧ (∀ msg fs2,
      processJobModel resolve debugPath savePath (some pold) cap call
          contentPassed contentReason fs =
        { result := .error msg, fs := fs2 } →
      resolve pold ∈ fs → resolve pold ∈ fs2) := by
  by_cases hsucc : cap.success
  · by_cases hblank : isBlankPage cap.screenshotLen cap.pdfLen = true
    · constructor
      · intro pnew fs2 h
        simp [processJobModel, hsucc, hblank] at h
      · intro msg fs2 h hmem
        simp [processJobModel, hsucc, hblank] at h
        rw [← h.2]; exact mem_writeAt_of_mem _ hmem
    · rcases hq : qualityStage (screenshotFailed cap.screenshotLen) call with msg0 | q0
      · constructor
        · intro pnew fs2 h
          simp [processJobModel, hsucc, hblank, hq] at h
        · intro msg fs2 h hmem
          simp [processJobModel, hsucc, hblank, hq] at h
          rw [← h.2]
          split
          · exact mem_writeAt_of_mem _ hmem
          · exact hmem
      · by_cases hcp : contentPassed
        · constructor
          · intro pnew fs2 h
            simp [processJobModel, hsucc, hblank, hq, hcp] at h
            obtain ⟨hres, hfs⟩ := h
            subst hres
            rw [← hfs]
            unfold deleteOldFileIfDifferent
            by_cases heq : resolve pold = resolve savePath
            · simp only [heq, if_pos rfl]
              refine ⟨mem_writeAt_self _ _, ?_, ?_⟩
              · intro hnot
                exact absurd (heq ▸ mem_writeAt_self (resolve savePath) _) hnot
              · intro hne; exact absurd rfl hne
            · simp only [if_neg heq]
              refine ⟨mem_removeFile_of_ne (mem_writeAt_self _ _)
                  (fun hc => heq hc.symm), ?_, ?_⟩
              · intro _; exact heq
              · intro _; exact not_mem_removeFile _ _
          · intro msg fs2 h
            simp [processJobModel, hsucc, hblank, hq, hcp] at h
        · constructor
          · intro pnew fs2 h
            simp [processJobModel, hsucc, hblank, hq, hcp] at h
          · intro msg fs2 h hmem
            simp [processJobModel, hsucc, hblank, hq, hcp] at h
            rw [← h.2]
            refine mem_writeAt_of_mem _ ?_
            split
            · exact mem_writeAt_of_mem _ hmem
            · exact hmem
  · constructor
    · intro pnew fs2 h
      simp [processJobModel, hsucc] at h
    · intro msg fs2 h hmem
      simp [processJobModel, hsucc] at h
      rw [← h.2]; exact hmem

/-- Closed instance of the C4 protocol theorem on a concrete successful
rerun: the new file exists afterwards and the differing old file is gone. -/
theorem oldFilePath_protocol_witness :
    ("/data/new.pdf" : String) ∈ (["/data/new.pdf"] : FS)
    ∧ (("/data/old.pdf" : String) ∉ (["/data/new.pdf"] : FS) ↔
        ("/data/old.pdf" : String) ≠ "/data/new.pdf") :=
  (oldFilePath_protocol id "/data/debug.pdf" "/data/new.pdf" "/data/old.pdf"
      { success := true, reason := "", error := ""
        screenshotLen := 20000, pdfLen := 6000 }
      (.returns { passed := true
                  score := { score := 90, issue := none, reasoning := "ok" }
                  issue := none })
      true "" ["/data/old.pdf"]).1
    "/data/new.pdf" ["/data/new.pdf"] rfl

/-! ## Weekly bin organization (src/media/organization.ts) -/

/-- Day number (1970-01-01 = 0) of a civil date, month 1-12.  This models the
timestamp `Date.UTC(date.getFullYear(), date.getMonth(), date.getDate())`
divided by 86400000; the worker feeds `getISOWeekNumber` dates built this
way, so day arithmetic on this number models `setUTCDate`. -/
def daysFromCivil (y : Int) (m d : Nat) : Int :=
  let yAdj : Int := if m ≤ 2 then y - 1 else y
  let era : Int := Int.fdiv yAdj 400
  let yoe : Int := yAdj - era * 400
  let mp : Int := if m > 2 then (m : Int) - 3 else (m : Int) + 9
  let doy : Int := Int.ediv (153 * mp + 2) 5 + (d : Int) - 1
  let doe : Int := yoe * 365 + Int.ediv yoe 4 - Int.ediv yoe 100 + doy
  era * 146097 + doe - 719468

/-- Civil year containing a given day number: models `getUTCFullYear()` of a
date holding that day. -/
def yearFromDays (z : Int) : Int :=
  let z2 : Int := z + 719468
  let era : Int := Int.fdiv z2 146097
  let doe : Int := z2 - era * 146097
  let yoe : Int :=
    Int.ediv (doe - Int.ediv doe 1460 + Int.ediv doe 36524 - Int.ediv doe 146096) 365
  let y : Int := yoe + era * 400
  let doy : Int := doe - (365 * yoe + Int.ediv yoe 4 - Int.ediv yoe 100)
  let mp : Int := Int.ediv (5 * doy + 2) 153
  let mm : Int := if mp < 10 then mp + 3 else mp - 9
  if mm ≤ 2 then y + 1 else y

/-- Source `getISOWeekNumber(date)` from `src/media/organization.ts`: snap to the
nearest Thursday (`d.setUTCDate(d.getUTCDate() + 4 - dayNum)` with Sunday
mapped to 7), take that Thursday's year, and count weeks from January 1 with
`Math.ceil(((d - yearStart) / 86400000 + 1) / 7)`. -/
def getISOWeekNumber (y : Int) (m d : Nat) : Int × Int :=
  let n := daysFromCivil y m d
  let w := Int.emod (n + 4) 7
  let dayNum : Int := if w = 0 then 7 else w
  let t := n + 4 - dayNum
  let ty := yearFromDays t
  let yearStart := daysFromCivil ty 1 1
  let week := Int.ediv ((t - yearStart + 1) + 6) 7
  (ty, week)

/-- Source `week.toString().padStart(2, '0')`. -/
def padWeek (week : Int) : String :=
  let s := toString week
  if s.length < 2 then "0" ++ s else s

/-- Source `getWeeklyBinPath(bookmarkedAt, mediaType)`: the directory
`DATA_DIR/media/{year}-W{ww}/{mediaType}s` for the ISO week of the date. -/
def getWeeklyBinPath (dataDir : String) (y : Int) (m d : Nat)
    (mediaType : String) : String :=
  let yw := getISOWeekNumber y m d
  dataDir ++ "/media/" ++ toString yw.1 ++ "-W" ++ padWeek yw.2 ++ "/"
    ++ mediaType ++ "s"

/-! ## Claim theorems: ISO week numbering (C5) -/

/-- C5: the week computation matches ISO-8601 at the three pinned dates —
2020-01-01 is week 1 of 2020, 2021-01-01 is week 53 of 2020, 2024-12-30 is
week 1 of 2025 — and the weekly bin path is a pure function of the computed
(year, week) pair and the media type: dates with equal `getISOWeekNumber`
yield equal bin paths. -/
theorem isoWeek_correct :
    getISOWeekNumber 2020 1 1 = (2020, 1)
    ∧ getISOWeekNumber 2021 1 1 = (2020, 53)
    ∧ getISOWeekNumber 2024 12 30 = (2025, 1)
    ∧ ∀ dataDir : String, ∀ y1 : Int, ∀ m1 d1 : Nat, ∀ y2 : Int, ∀ m2 d2 : Nat,
      ∀ mt : String,
        getISOWeekNumber y1 m1 d1 = getISOWeekNumber y2 m2 d2 →
        getWeeklyBinPath dataDir y1 m1 d1 mt = getWeeklyBinPath dataDir y2 m2 d2 mt := by
  refine ⟨by decide, by decide, by decide, ?_⟩
  intro dataDir y1 m1 d1 y2 m2 d2 mt h
  unfold getWeeklyBinPath
  rw [h]

/-- Closed instance of C5: 2019-12-30 (the Monday opening ISO week 1 of
2020) and 2020-01-01 land in the same weekly bin. -/
theorem isoWeek_correct_witness :
    getWeeklyBinPath "./data" 2020 1 1 "pdf" =
      getWeeklyBinPath "./data" 2019 12 30 "pdf" :=
  isoWeek_correct.2.2.2 "./data" 2020 1 1 2019 12 30 "pdf" (by decide)

/-! ## PDF content analysis (src/quality/pdf-content.ts) -/

/-- Text and page count delivered by the pdf-parse `getText()` call. -/
structure PdfTextInfo where
  text : String
  total : Nat
deriving Repr, DecidableEq

/-- Return value of `analyzePdfContent` (the reported `charsPerKb` is the
one-decimal rounded ratio). -/
structure PdfContentResult where
  passed : Bool
  pageCount : Nat
  charCount : Nat
  pdfSize : Nat
  charsPerKb : ℚ
  reason : Option String
deriving Repr

/-- Whitespace class used by the `\s` of `text.replace(/\s+/g, ' ')`. -/
def isWsChar (c : Char) : Bool :=
  c = ' ' || c = '\t' || c = '\n' || c = '\r'

/-- Replace every whitespace run by a single space. -/
def squeezeWs : List Char → List Char
  | [] => []
  | c :: rest =>
    match rest with
    | [] => [if isWsChar c then ' ' else c]
    | c2 :: _ =>
      if isWsChar c && isWsChar c2 then squeezeWs rest
      else (if isWsChar c then ' ' else c) :: squeezeWs rest

/-- Drop leading and trailing whitespace (`.trim()`). -/
def trimChars (l : List Char) : List Char :=
  ((l.dropWhile isWsChar).reverse.dropWhile isWsChar).reverse

/-- Source `textResult.text.replace(/\s+/g, ' ').trim()`. -/
def normalizeWs (s : String) : String :=
  String.mk (trimChars (squeezeWs s.data))

/-- Constant `MIN_ARTICLE_CHARS = 500`. -/
def MIN_ARTICLE_CHARS : Nat := 500

/-- Constant `LARGE_PDF_THRESHOLD = 500 * 1024`. -/
def LARGE_PDF_THRESHOLD : Nat := 500 * 1024

/-- Constant `MIN_CHARS_FOR_LARGE_PDF = 1000`. -/
def MIN_CHARS_FOR_LARGE_PDF : Nat := 1000

/-- Constant `MIN_CHARS_PER_KB = 5`. -/
def MIN_CHARS_PER_KB : ℚ := 5

/-- Constant `SUFFICIENT_CHARS_BYPASS_RATIO = 3000` (chars that bypass the
density check). -/
def sufficientCharsBypass : Nat := 3000

/-- Constant `MIN_CHARS_PER_PAGE_BYPASS = 400`. -/
def MIN_CHARS_PER_PAGE_BYPASS : ℚ := 400

/-- Constant `MAX_CHARS_FOR_ERROR_PAGE = 2000`. -/
def MAX_CHARS_FOR_ERROR_PAGE : Nat := 2000

/-- Checks 1-3 of `analyzePdfContent` (minimum characters, large PDF with
little text, low density with its two bypasses), reached when the error-page
check does not fire. -/
def pdfContentChecks (pageCount charCount pdfSize : Nat)
    (charsPerKb roundedKb : ℚ) : PdfContentResult :=
  if charCount < MIN_ARTICLE_CHARS then
    { passed := false, pageCount := pageCount, charCount := charCount
      pdfSize := pdfSize, charsPerKb := roundedKb
      reason := some ("PDF has only " ++ toString charCount
        ++ " characters of text (minimum: " ++ toString MIN_ARTICLE_CHARS
        ++ "). Content appears truncated.") }
  else if pdfSize > LARGE_PDF_THRESHOLD ∧ charCount < MIN_CHARS_FOR_LARGE_PDF then
    { passed := false, pageCount := pageCount, charCount := charCount
      pdfSize := pdfSize, charsPerKb := roundedKb
      reason := some ("Large PDF (" ++ toString (round ((pdfSize : ℚ) / 1024))
        ++ "KB) has only " ++ toString charCount
        ++ " characters. Likely truncated article with hero image.") }
  else
    if pageCount > 1 ∧ charsPerKb < MIN_CHARS_PER_KB
        ∧ ¬(charCount ≥ sufficientCharsBypass)
        ∧ ¬((if pageCount > 0 then (charCount : ℚ) / (pageCount : ℚ) else 0)
              ≥ MIN_CHARS_PER_PAGE_BYPASS) then
      { passed := false, pageCount := pageCount, charCount := charCount
        pdfSize := pdfSize, charsPerKb := roundedKb
        reason := some ("PDF has very low text density (" ++ toString roundedKb
          ++ " chars/KB). Expected article content may be missing.") }
    else
      { passed := true, pageCount := pageCount, charCount := charCount
        pdfSize := pdfSize, charsPerKb := roundedKb, reason := none }

/-- Source `analyzePdfContent(pdfBuffer)` as a function of the parse outcome
(`none` when pdf-parse throws) and the buffer size.  `errMatch` stands for
the `ERROR_PAGE_PATTERNS` scan: it returns the matched fragment of the
normalized text, if any; it is consulted only below 2000 characters.
The function performs, in order: error-page check, minimum-character check,
large-PDF check, density check with its two bypasses — and NO paywall check
of any kind. -/
def analyzePdfContent (errMatch : String → Option String)
    (parsed : Option PdfTextInfo) (pdfSize : Nat) : PdfContentResult :=
  match parsed with
  | none =>
      { passed := true, pageCount := 0, charCount := 0, pdfSize := pdfSize
        charsPerKb := 0
        reason := some "PDF parsing failed, skipping content check" }
  | some info =>
      let normalizedText := normalizeWs info.text
      let charCount := normalizedText.length
      let pageCount := info.total
      let charsPerKb : ℚ :=
        if pdfSize > 0 then (charCount : ℚ) / ((pdfSize : ℚ) / 1024) else 0
      let roundedKb : ℚ := (round (charsPerKb * 10) : ℚ) / 10
      if charCount < MAX_CHARS_FOR_ERROR_PAGE then
        match errMatch normalizedText with
        | some frag =>
            { passed := false, pageCount := pageCount, charCount := charCount
              pdfSize := pdfSize, charsPerKb := roundedKb
              reason := some ("Error page detected: \"" ++ frag
                ++ "\". This appears to be a 404 or error page.") }
        | none => pdfContentChecks pageCount charCount pdfSize charsPerKb roundedKb
      else pdfContentChecks pageCount charCount pdfSize charsPerKb roundedKb

/-- A PDF text of 529 characters (500 filler letters followed by the fixed
paywall phrase); its whitespace-collapsed form ends in the phrase. -/
def paywallSampleText : String :=
  String.mk (List.replicate 500 'a' ++ "subscribe to continue reading".data)

/-! ## Claim theorems: paywall detection (C2) -/

set_option maxRecDepth 8000 in
/-- C2 evaluation at the failing input: a PDF whose extracted,
whitespace-collapsed text contains the fixed phrase
"subscribe to continue reading" (here: 529 characters, one page, 100000
bytes) PASSES `analyzePdfContent` with no failure reason — the content-stage
analyzer has no paywall check, so the claimed paywall failure never happens.
The error-page scan is instantiated with the matcher returning `none`, which
is what `ERROR_PAGE_PATTERNS` yields on this text (none of the ten 404/error
regexes matches a run of letters followed by the paywall phrase). -/
theorem analyzePdfContent_paywall_missing_eval :
    List.isSuffixOf "subscribe to continue reading".data
        (normalizeWs paywallSampleText).data = true
    ∧ (analyzePdfContent (fun _ => none)
        (some { text := paywallSampleText, total := 1 }) 100000).passed = true
    ∧ (analyzePdfContent (fun _ => none)
        (some { text := paywallSampleText, total := 1 }) 100000).reason = none := by
  refine ⟨by decide, rfl, rfl⟩

/-! ## ASR transport (src/podcasts/transcriber.ts) -/

/-- Timeout options of an undici `Agent`, in milliseconds. -/
structure AgentOptions where
  headersTimeout : Nat
  bodyTimeout : Nat
  connectTimeout : Nat
deriving Repr, DecidableEq

/-- The `whisperAgent` constructed at lines 25-29 of
`src/podcasts/transcriber.ts`: 30 minutes for response headers, 30 minutes
for the response body, 30 seconds to establish the connection. -/
def whisperAgent : AgentOptions :=
  { headersTimeout := 30 * 60 * 1000
    bodyTimeout := 30 * 60 * 1000
    connectTimeout := 30 * 1000 }

/-- Four hours in milliseconds, the bound demanded by the specification. -/
def fourHoursMs : Nat := 4 * 60 * 60 * 1000

/-- Five minutes in milliseconds. -/
def fiveMinutesMs : Nat := 5 * 60 * 1000

/-! ## Claim theorems: ASR transport timeouts (C7) -/

/-- C7 evaluation: the transport built for the ASR call has 30-minute
headers and body timeouts — BELOW the demanded 4-hour bound — and a
30-second connect timeout, not the demanded ~5 minutes. -/
theorem whisperAgent_timeouts_eval :
    whisperAgent.headersTimeout < fourHoursMs
    ∧ whisperAgent.bodyTimeout < fourHoursMs
    ∧ whisperAgent.headersTimeout = 30 * 60 * 1000
    ∧ whisperAgent.connectTimeout = 30 * 1000
    ∧ whisperAgent.connectTimeout ≠ fiveMinutesMs := by
  refine ⟨by decide, by decide, rfl, rfl, by decide⟩

/-! ## File deletion route (src/api/routes/files.ts, POST /delete) -/

/-- Segment splitter on `/` over the character list. -/
def splitSegsAux : List Char → List Char → List String
  | [], cur => [String.mk cur.reverse]
  | c :: rest, cur =>
    if c = '/' then String.mk cur.reverse :: splitSegsAux rest []
    else splitSegsAux rest (c :: cur)

/-- Split a path string on `/`, dropping empty segments. -/
def splitPath (s : String) : List String :=
  (splitSegsAux s.data []).filter (fun seg => seg ≠ "")

/-- Normalize `.` and `..` segments the way `path.resolve` does: `..` pops
the last kept segment (staying at the root when there is none), `.` is
dropped. -/
def normSegs (segs : List String) : List String :=
  segs.foldl
    (fun acc seg =>
      if seg = "." then acc
      else if seg = ".." then acc.dropLast
      else acc ++ [seg])
    []

/-- Render an absolute path from segments. -/
def renderAbs (segs : List String) : String :=
  "/" ++ String.intercalate "/" segs

/-- Source `path.resolve(base, rel)` for an absolute, already-normalized `base`:
an absolute `rel` wins, a relative one is resolved against `base`. -/
def pathResolve (base rel : String) : String :=
  if strStartsWith rel "/" then renderAbs (normSegs (splitPath rel))
  else renderAbs (normSegs (splitPath base ++ splitPath rel))

/-- The loop body of `POST /delete` (files.ts lines 597-614): resolve each
requested path against the resolved data directory, skip it when the
resolved string does not START WITH the data-directory string, otherwise
unlink it (counting only files that existed).  Returns the `deleted` count
and the final file set. -/
def deleteFilesRoute (dataDir : String) (files : List String) (fs : FS) :
    Nat × FS :=
  files.foldl
    (fun acc filePath =>
      let fullPath := pathResolve dataDir filePath
      if strStartsWith fullPath dataDir then
        ((if fullPath ∈ acc.2 then acc.1 + 1 else acc.1), removeFile fullPath acc.2)
      else acc)
    (0, fs)

/-! ## Claim theorems: delete path-traversal guard (C9) -/

/-- C9 evaluation at the failing input: with the data directory resolved to
`/app/data`, the request `files = ["../data-evil/secret.pdf"]` resolves to
`/app/data-evil/secret.pdf` — which is NOT within the `/app/data` directory
(its segments are not an extension of the directory segments) — yet it
passes the `startsWith` guard and the file IS unlinked: the route reports
one deletion and the file set loses the outside file.  The claim that a path
resolving outside the data directory is rejected before any filesystem
operation is false on this input. -/
theorem deleteFiles_traversal_eval :
    pathResolve "/app/data" "../data-evil/secret.pdf" = "/app/data-evil/secret.pdf"
    ∧ (splitPath "/app/data").isPrefixOf
        (splitPath "/app/data-evil/secret.pdf") = false
    ∧ deleteFilesRoute "/app/data" ["../data-evil/secret.pdf"]
        ["/app/data-evil/secret.pdf"] = (1, []) := by
  refine ⟨by decide, by decide, by decide⟩

/-! ## savePdfToWeeklyBin (src/workers/conversion.worker.ts, lines 109-230) -/

/-- The `hostname`/`pathname` of a successfully constructed `new URL(url)`. -/
structure UrlParts where
  hostname : String
  pathname : String
deriving Repr, DecidableEq

/-- Collapse runs of dashes to a single dash (the dash-run replace step). -/
def squeezeDashes : List Char → List Char
  | [] => []
  | c :: rest =>
    match rest with
    | [] => [c]
    | c2 :: _ =>
      if c = '-' && c2 = '-' then squeezeDashes rest
      else c :: squeezeDashes rest

/-- Is the character kept by `slugifyTitle`'s `[^a-z0-9\s-]` removal? -/
def isSlugChar (c : Char) : Bool :=
  ('a' ≤ c && c ≤ 'z') || ('0' ≤ c && c ≤ '9') || isWsChar c || c = '-'

/-- Source `slugifyTitle(title)`: lowercase, remove apostrophes, remove special
characters, whitespace runs to dashes, collapse dash runs, trim one leading
and one trailing dash, truncate to 50 characters. -/
def slugifyTitle (title : String) : String :=
  let l1 := title.data.map Char.toLower
  let l2 := l1.filter (fun c => c.toNat ≠ 39)
  let l3 := l2.filter isSlugChar
  let l4 := l3.map (fun c => if isWsChar c then '-' else c)
  let l5 := squeezeDashes l4
  let l6 := if l5.head? = some '-' then l5.tail else l5
  let l7 := if l6.getLast? = some '-' then l6.dropLast else l6
  String.mk (l7.take 50)

/-- Source `isTwitterUrl(url)`: the parsed hostname, lowercased, is one of the four
twitter hosts; an unparseable URL is not a twitter URL. -/
def isTwitterUrl (parse : String → Option UrlParts) (url : String) : Bool :=
  match parse url with
  | none => false
  | some p =>
      let h := String.mk (p.hostname.data.map Char.toLower)
      h = "x.com" || h = "twitter.com" || h = "www.x.com" || h = "www.twitter.com"

/-- Does the character list contain `pat` as a contiguous run
(JavaScript `String.includes`)? -/
def containsSeg (pat : List Char) : List Char → Bool
  | [] => pat.isEmpty
  | c :: rest => pat.isPrefixOf (c :: rest) || containsSeg pat rest

/-- Replace the first occurrence of `pat` in the character list. -/
def replaceFirstAux (pat rep : List Char) : List Char → List Char
  | [] => []
  | c :: rest =>
    if pat.isPrefixOf (c :: rest) then rep ++ (c :: rest).drop pat.length
    else c :: replaceFirstAux pat rep rest

/-- JavaScript `String.replace` with a string pattern: first occurrence only. -/
def replaceFirst (s pat rep : String) : String :=
  String.mk (replaceFirstAux pat.data rep.data s.data)

/-- The `nonDescriptivePaths` list of `savePdfToWeeklyBin`. -/
def nonDescriptivePaths : List String :=
  ["item", "comments", "post", "p", "a", "article", "story", "s"]

/-- The basename computation of `savePdfToWeeklyBin` (lines 171-219): on a
parse failure the literal `document`; otherwise hostname with `www.`
stripped, slashes of the pathname turned into dashes with one trailing and
one leading dash removed, title-slug fallback for empty or non-descriptive
paths (JS truthiness: a missing or empty title does not trigger the
fallback), and the twitter `-status-` replacement steered by `isXArticle`. -/
def pdfBaseName (parse : String → Option UrlParts) (url : String)
    (title : Option String) (isXArticle : Option Bool) : String :=
  match parse url with
  | none => "document"
  | some parsed =>
      let hostname :=
        if strStartsWith parsed.hostname "www."
        then String.mk (parsed.hostname.data.drop 4) else parsed.hostname
      let p1 := String.mk
        (parsed.pathname.data.map (fun c => if c = '/' then '-' else c))
      let p2 := if p1.data.getLast? = some '-' then String.mk p1.data.dropLast else p1
      let pathname := if p2.data.head? = some '-' then String.mk (p2.data.drop 1) else p2
      let lowered := String.mk (pathname.data.map Char.toLower)
      let isNonDescriptive := pathname = "" || nonDescriptivePaths.contains lowered
      let fromPath := if pathname ≠ "" then hostname ++ "-" ++ pathname else hostname
      let base :=
        match title with
        | some t =>
            if isNonDescriptive && t ≠ "" then
              let titleSlug := slugifyTitle t
              if titleSlug ≠ "" then hostname ++ "-" ++ titleSlug else fromPath
            else fromPath
        | none => fromPath
      if isTwitterUrl parse url && containsSeg "-status-".data base.data then
        match isXArticle with
        | some true => replaceFirst base "-status-" "-article-"
        | some false => replaceFirst base "-status-" "-post-"
        | none => base
      else base

/-- The directory `DATA_DIR/media/{year}-W{ww}/pdfs` built by
`savePdfToWeeklyBin` for the job's date. -/
def weeklyPdfDir (dataDir : String) (y : Int) (m d : Nat) : String :=
  let yw := getISOWeekNumber y m d
  dataDir ++ "/media/" ++ toString yw.1 ++ "-W" ++ padWeek yw.2 ++ "/pdfs"

/-- Source `savePdfToWeeklyBin`: sanitize and truncate the basename to 100
characters, append `.pdf`, join onto the weekly pdf directory, and return
the path.  `parse` stands for `new URL` (returning `none` when it throws)
and `sanitize` for the `sanitize-filename` package. -/
def savePdfToWeeklyBin (parse : String → Option UrlParts)
    (sanitize : String → String) (dataDir : String) (y : Int) (m d : Nat)
    (url : String) (title : Option String) (isXArticle : Option Bool) : String :=
  let pdfDir := weeklyPdfDir dataDir y m d
  let baseName :=
    String.mk ((sanitize (pdfBaseName parse url title isXArticle)).data.take 100)
  pdfDir ++ "/" ++ (baseName ++ ".pdf")

/-! ## Claim theorems: totality of savePdfToWeeklyBin (C10) -/

/-- C10: for every URL parser, sanitizer, data directory, date, url string,
title and twitter flag, the computed save path lies inside the weekly pdf
bin and ends in `.pdf`; and when URL parsing fails the basename is the
sanitized literal `document`, so an unparseable url never prevents the
save. -/
theorem savePdfToWeeklyBin_total (parse : String → Option UrlParts)
    (sanitize : String → String) (dataDir url : String) (y : Int) (m d : Nat)
    (title : Option String) (isXArticle : Option Bool) :
    (∃ base, savePdfToWeeklyBin parse sanitize dataDir y m d url title isXArticle
        = weeklyPdfDir dataDir y m d ++ "/" ++ (base ++ ".pdf"))
    ∧ (parse url = none →
        savePdfToWeeklyBin parse sanitize dataDir y m d url title isXArticle
          = weeklyPdfDir dataDir y m d ++ "/"
            ++ (String.mk ((sanitize "document").data.take 100) ++ ".pdf")) := by
  constructor
  · exact ⟨String.mk ((sanitize (pdfBaseName parse url title isXArticle)).data.take 100), rfl⟩
  · intro h
    simp [savePdfToWeeklyBin, pdfBaseName, h]

/-- Closed instance of C10 on a string that is not a URL at all. -/
theorem savePdfToWeeklyBin_total_witness :
    savePdfToWeeklyBin (fun _ => none) id "./data" 2026 2 15
        "not a url" none none
      = weeklyPdfDir "./data" 2026 2 15 ++ "/"
        ++ (String.mk ((id "document" : String).data.take 100) ++ ".pdf") :=
  (savePdfToWeeklyBin_total (fun _ => none) id "./data" "not a url" 2026 2 15
      none none).2 rfl

/-! ## Podcast transcript PDF generation (src/podcasts/pdf-generator.ts) -/

/-- One Whisper transcript segment (`start`/`end` seconds and text); the
source field `end` is called `stop` here. -/
structure TranscriptSegment where
  start : ℚ
  stop : ℚ
  text : String
deriving Repr

/-- The Whisper response consumed by the PDF generator (`segments` empty
when the service returned plain text only). -/
structure WhisperResp where
  text : String
  segments : List TranscriptSegment
deriving Repr

/-- Split a string on a separator character, keeping empty pieces
(JavaScript `String.split`). -/
def splitCharAux (sep : Char) : List Char → List Char → List String
  | [], cur => [String.mk cur.reverse]
  | c :: rest, cur =>
    if c = sep then String.mk cur.reverse :: splitCharAux sep rest []
    else splitCharAux sep rest (c :: cur)

/-- JavaScript `s.split(sep)` for a one-character separator. -/
def splitOnChar (sep : Char) (s : String) : List String :=
  splitCharAux sep s.data []

/-- JavaScript `s.trim()`. -/
def trimStr (s : String) : String := String.mk (trimChars s.data)

/-- One word step of `wrapText`: try to extend the current line; on
overflow, flush the current line (when non-empty) and start from the word. -/
def wrapStep (width : String → ℚ) (maxWidth : ℚ)
    (st : List String × String) (word : String) : List String × String :=
  let testLine := if st.2 ≠ "" then st.2 ++ " " ++ word else word
  if width testLine ≤ maxWidth then (st.1, testLine)
  else if st.2 ≠ "" then (st.1 ++ [st.2], word) else (st.1, word)

/-- Wrap one paragraph of `wrapText` into lines. -/
def wrapLine (width : String → ℚ) (maxWidth : ℚ) (words : List String) :
    List String :=
  let fin := words.foldl (wrapStep width maxWidth) ([], "")
  if fin.2 ≠ "" then fin.1 ++ [fin.2] else fin.1

/-- Source `wrapText(text, font, fontSize, maxWidth)` with the font's
`widthOfTextAtSize` abstracted into `width`: paragraphs split on newlines,
blank paragraphs kept as empty lines, words split on single spaces, greedy
fill against `maxWidth`.  Characters are passed through UNCHANGED — the
generator performs no sanitization of any kind. -/
def wrapText (width : String → ℚ) (maxWidth : ℚ) (text : String) :
    List String :=
  (splitOnChar '\n' text).foldl
    (fun lines para =>
      if trimStr para = "" then lines ++ [""]
      else lines ++ wrapLine width maxWidth (splitOnChar ' ' para))
    []

/-- Two-digit zero padding (`padStart(2, '0')`). -/
def pad2 (n : Int) : String :=
  let s := toString n
  if s.length < 2 then "0" ++ s else s

/-- One segment step of `formatTranscriptWithTimestamps`: state is
(emitted lines, current paragraph pieces, last timestamp). -/
def formatSegStep (st : List String × List String × ℚ)
    (seg : TranscriptSegment) : List String × List String × ℚ :=
  let (lines, cur, last) := st
  let timeDiff := seg.start - last
  let shouldAdd := decide (timeDiff ≥ 120)
    || (decide (timeDiff ≥ 30) && decide (cur ≠ []))
  if shouldAdd && decide (cur ≠ []) then
    let minutes : Int := Int.floor (seg.start / 60)
    let seconds : Int := Int.floor seg.start - 60 * Int.floor (seg.start / 60)
    (lines ++ [String.intercalate " " cur, "",
       "[" ++ toString minutes ++ ":" ++ pad2 seconds ++ "]"],
     [trimStr seg.text], seg.start)
  else (lines, cur ++ [trimStr seg.text], seg.start)

/-- Source `formatTranscriptWithTimestamps(segments)`: paragraphs broken at ≥120s
gaps (or ≥30s gaps with content pending), with `[m:ss]` markers. -/
def formatTranscriptWithTimestamps (segments : List TranscriptSegment) :
    String :=
  let fin := segments.foldl formatSegStep ([], [], 0)
  let lines :=
    if fin.2.1 ≠ [] then fin.1 ++ [String.intercalate " " fin.2.1] else fin.1
  String.intercalate "\n" lines

/-- Source `formatTranscript(transcript)`: timestamped formatting when segments are
present, else the plain text unchanged. -/
def formatTranscript (transcript : WhisperResp) : String :=
  if transcript.segments.isEmpty then transcript.text
  else formatTranscriptWithTimestamps transcript.segments

/-- A transcript whose text contains the Word Joiner U+2060, the exact
character of the documented WinAnsi encoding failure. -/
def transcriptSample : WhisperResp :=
  { text := "Hello⁠World", segments := [] }

/-! ## Claim theorems: transcript text sanitization (C8) -/

/-- C8 evaluation at the failing input: the transcript text reaches the
drawn lines of the PDF body verbatim — for a transcript containing the
zero-width Word Joiner U+2060 the single wrapped line still contains
U+2060.  No sanitization function exists anywhere in the generator, so the
claim that every drawn string is first mapped to the font's encodable
subset is false, and `drawText` is reached with an unencodable character. -/
theorem transcriptPdf_unsanitized_eval :
    wrapText (fun s => (s.length : ℚ)) 512 (formatTranscript transcriptSample)
      = ["Hello⁠World"]
    ∧ ("Hello⁠World").data.contains (Char.ofNat 0x2060) = true := by
  refine ⟨by decide, by decide⟩

/-! ## URL canonicalizer (src/urls/normalizer.ts) -/

/-- A parsed URL as the canonicalizer sees it: scheme, hostname, path,
query parameter list (in order), and fragment. -/
structure CanonUrl where
  scheme : String
  host : String
  pathname : String
  query : List (String × String)
  fragment : Option String
deriving Repr, DecidableEq

/-- Modelled from the spec: the `www.`-subdomain strip of the external
`normalize-url` package (the package itself is not part of src/;
`normalizeBookmarkUrl` only passes `stripWWW: true`).  The leading `www.`
label is removed only when the remaining hostname does not itself begin
with `www.`, which is the package's documented guard and what makes the
operation stable. -/
def stripWWW (host : String) : String :=
  if strStartsWith host "www."
      && !strStartsWith (String.mk (host.data.drop 4)) "www."
  then String.mk (host.data.drop 4)
  else host

/-- Modelled from the spec: `removeTrailingSlash` together with
`removeSingleSlash` — the canonical path carries no trailing slashes, and a
lone `/` becomes the empty path. -/
def removeTrailingSlashes (p : String) : String :=
  String.mk ((p.data.reverse.dropWhile (fun c => c = '/')).reverse)

/-- The query parameter characters counted as word characters by the
`utm_` pattern. -/
def isWordChar (c : Char) : Bool :=
  ('a' ≤ c && c ≤ 'z') || ('0' ≤ c && c ≤ '9') || c = '_'

/-- Does the parameter name match the case-insensitive `utm_` word pattern
of `normalizeBookmarkUrl`'s removeQueryParameters list? -/
def isUtmName (k : String) : Bool :=
  let l := k.data.map Char.toLower
  "utm_".data.isPrefixOf l &&
    (match l.drop 4 with
     | [] => false
     | c :: _ => isWordChar c)

/-- The literal tracking parameter names removed by `normalizeBookmarkUrl`. -/
def trackingNames : List String :=
  ["ref", "source", "fbclid", "gclid", "msclkid"]

/-- Is the parameter deleted as a tracking parameter? -/
def isTrackingParam (k : String) : Bool :=
  isUtmName k || trackingNames.contains k

/-- Modelled from the spec: `sortQueryParameters` — stable sort of the
parameter list by name. -/
def sortParams (q : List (String × String)) : List (String × String) :=
  q.mergeSort (fun a b => a.1 ≤ b.1)

/-- Modelled from the spec: `normalizeBookmarkUrl` (BOOK-03) via the
`normalize-url` package with `stripWWW`, `removeQueryParameters` for
tracking parameters, `stripHash`, `stripTextFragment`,
`removeTrailingSlash`, `removeSingleSlash` and `sortQueryParameters`. -/
def canonicalize (u : CanonUrl) : CanonUrl :=
  { scheme := u.scheme
    host := stripWWW u.host
    pathname := removeTrailingSlashes u.pathname
    query := sortParams (u.query.filter (fun kv => !isTrackingParam kv.1))
    fragment := none }

/-! ## Canonicalizer helper lemmas -/

theorem dropWhile_dropWhile_eq {α : Type} (p : α → Bool) (l : List α) :
    (l.dropWhile p).dropWhile p = l.dropWhile p := by
  induction l with
  | nil => rfl
  | cons c t ih =>
    by_cases h : p c
    · simp [List.dropWhile_cons, h, ih]
    · simp [List.dropWhile_cons, h]

theorem stripWWW_idem (h : String) : stripWWW (stripWWW h) = stripWWW h := by
  unfold stripWWW
  by_cases h1 : (strStartsWith h "www."
      && !strStartsWith (String.mk (h.data.drop 4)) "www.") = true
  · rw [if_pos h1]
    have h2 : strStartsWith (String.mk (h.data.drop 4)) "www." = false := by
      rcases (by simpa using h1 :
          strStartsWith h "www." = true
          ∧ strStartsWith (String.mk (h.data.drop 4)) "www." = false) with ⟨_, hb⟩
      exact hb
    rw [if_neg]
    simp [h2]
  · rw [if_neg h1, if_neg h1]

theorem removeTrailingSlashes_idem (p : String) :
    removeTrailingSlashes (removeTrailingSlashes p) = removeTrailingSlashes p := by
  unfold removeTrailingSlashes
  simp only [List.reverse_reverse]
  rw [dropWhile_dropWhile_eq]

theorem sortParams_pairwise (q : List (String × String)) :
    List.Pairwise (fun a b : String × String => (a.1 ≤ b.1 : Bool) = true)
      (sortParams q) := by
  unfold sortParams
  refine List.sorted_mergeSort ?_ ?_ q
  · intro a b c hab hbc
    simp only [decide_eq_true_eq] at hab hbc ⊢
    exact le_trans hab hbc
  · intro a b
    rcases le_total a.1 b.1 with h | h <;> simp [h]

theorem sortParams_of_sorted {q : List (String × String)}
    (h : List.Pairwise (fun a b : String × String => (a.1 ≤ b.1 : Bool) = true) q) :
    sortParams q = q :=
  List.mergeSort_of_sorted h

/-! ## Claim theorems: canonicalizer idempotence (C6) -/

/-- C6: the canonicalizer is idempotent — applying it to its own output
changes nothing.  The scheme is untouched, the `www.` strip is stable by
its guard, trailing-slash removal leaves no trailing slash behind, every
parameter surviving the tracking filter still survives it, a sorted
parameter list is left unchanged by the stable sort, and the fragment is
already gone. -/
theorem canonicalize_idempotent (u : CanonUrl) :
    canonicalize (canonicalize u) = canonicalize u := by
  unfold canonicalize
  simp only [CanonUrl.mk.injEq]
  refine ⟨trivial, stripWWW_idem _, removeTrailingSlashes_idem _, ?_, trivial⟩
  have hkeep : (sortParams (u.query.filter (fun kv => !isTrackingParam kv.1))).filter
      (fun kv => !isTrackingParam kv.1)
      = sortParams (u.query.filter (fun kv => !isTrackingParam kv.1)) := by
    refine List.filter_eq_self.mpr ?_
    intro a ha
    have : a ∈ u.query.filter (fun kv => !isTrackingParam kv.1) := by
      unfold sortParams at ha
      exact List.mem_mergeSort.mp ha
    exact (List.mem_filter.mp this).2
  rw [hkeep]
  exact sortParams_of_sorted (sortParams_pairwise _)
